import Mathlib

/-!
Shallow embedding of the 6ro-m render-loop controller (src/gpu, `createGPURenderer`
in src/unnamed/part_001), the engine facade (src/src/engine/index.ts) and the
`Result` type (src/src/Result.ts).

Conventions of the embedding:
- JavaScript numbers are modelled as rationals (`ℚ`); the one place where IEEE
  division by zero matters (the fps computation `1000 / delta`) stores a `JsNum`,
  which carries the JavaScript results `Infinity`, `-Infinity` and `NaN` explicitly.
- GPU handles (context, canvas, texture, animation-frame ids) are modelled as
  opaque `Nat` identifiers.
- A thrown exception / rejected promise is modelled as `Except.error`; a value
  of the source's `Result` type is modelled by the `Result` inductive below.
  The two are deliberately distinct: `Result` is a returned value the caller
  inspects, `Except.error` is a throw.
- External nondeterminism (the wall clock, whether the platform has WebGPU,
  whether an image decodes, whether a GPU call fails) is passed in as explicit
  parameters, so every function is a pure function of state and environment.
-/

namespace Rom6

/-- Mirror of `src/src/Result.ts`: `type Result<T,E> = Ok<T> | Err<E>`. -/
inductive Result (T E : Type) where
  | Ok (value : T)
  | Err (error : E)
deriving DecidableEq, Repr

/-- A JavaScript `number` as stored in the `fps` field: either a finite value or
one of the IEEE-754 non-finite results that division can produce. -/
inductive JsNum where
  | fin (q : ℚ)
  | posInf
  | negInf
  | nan
deriving DecidableEq, Repr

/-- JavaScript division `a / b` on numbers modelled exactly where it matters:
division of a finite numerator by zero yields `Infinity` / `-Infinity` / `NaN`
according to the numerator's sign; otherwise the exact rational quotient. -/
def jsDiv (a b : ℚ) : JsNum :=
  if b = 0 then
    if a = 0 then .nan
    else if 0 < a then .posInf
    else .negInf
  else .fin (a / b)

/-- Environment for `initWebGPU`: which of the platform capabilities probed by
the source are present, and the identifier of the context handle a successful
`canvas.getContext("webgpu")` would return. -/
structure GpuEnv where
  gpuAvailable : Bool
  adapterAvailable : Bool
  contextAvailable : Bool
  contextId : Nat
deriving DecidableEq, Repr

/-- Mirror of `initWebGPU` (src/unnamed/part_001): returns a `Result` value,
`Err 'WebGPU is not supported.'` when `navigator.gpu` is absent, `Err 'No GPU
adapter found.'` when `requestAdapter()` yields null, `Err 'WebGPU is not
supported.'` again when `getContext("webgpu")` yields null, and otherwise
`Ok` of the (configured) context handle. -/
def initWebGPU (env : GpuEnv) : Result Nat String :=
  if env.gpuAvailable = false then .Err "WebGPU is not supported."
  else if env.adapterAvailable = false then .Err "No GPU adapter found."
  else if env.contextAvailable = false then .Err "WebGPU is not supported."
  else .Ok env.contextId

/-- Mirror of the mutable `GPURendererState` record in `createGPURenderer`
(src/unnamed/part_001). Device, format, sampler, pipeline and the two static
buffers never change after construction and no claim mentions them, so they are
not carried; `context`, `canvas` and `texture` are carried as opaque ids. -/
structure GPURendererState where
  context : Nat
  canvas : Nat
  texture : Nat
  speed : ℚ
  angle : ℚ
  isRunning : Bool
  animationId : Option Nat
  lastFrameTime : ℚ
  fps : JsNum
deriving DecidableEq, Repr

/-- GPU-side calls a controller operation can issue, recorded as an effect log
so that theorems can talk about which resources were created or destroyed. -/
inductive GpuCall where
  | createTex (id : Nat)
  | destroyTex (id : Nat)
deriving DecidableEq, Repr

/-- Result of one execution of the `frame` callback: the state after the call,
whether a command buffer was submitted to the GPU queue, whether
`requestAnimationFrame` was called to schedule the next frame, and the error
if the callback threw. -/
structure FrameResult where
  state : GPURendererState
  submitted : Bool
  scheduled : Bool
  error : Option String
deriving DecidableEq, Repr

/-- Mirror of the `frame` callback in `createGPURenderer` (src/unnamed/part_001):
```
if (!state.isRunning) return;
const now = performance.now();
const delta = now - state.lastFrameTime;
state.fps = 1000 / delta;
state.lastFrameTime = now;
state.angle += (state.speed * (delta / 1000));
... compose matrices, write uniform buffer ...
state.context.getCurrentTexture()          // may throw: modelled by acquireOk
... draw ...
state.device.queue.submit(...)             // may throw: modelled by submitOk
state.animationId = requestAnimationFrame(frame);
```
`now` is the wall clock; `acquireOk` and `submitOk` say whether the two fallible
GPU calls succeed; `nextAnimId` is the handle `requestAnimationFrame` returns.
A throw aborts the callback at that point: writes already made remain, later
ones (in particular the rescheduling) do not happen. -/
def frame (now : ℚ) (acquireOk submitOk : Bool) (nextAnimId : Nat)
    (s : GPURendererState) : FrameResult :=
  if s.isRunning = false then
    { state := s, submitted := false, scheduled := false, error := none }
  else
    let delta := now - s.lastFrameTime
    let s1 : GPURendererState :=
      { s with
        fps := jsDiv 1000 delta
        lastFrameTime := now
        angle := s.angle + s.speed * (delta / 1000) }
    if acquireOk = false then
      { state := s1, submitted := false, scheduled := false,
        error := some "getCurrentTexture failed" }
    else if submitOk = false then
      { state := s1, submitted := false, scheduled := false,
        error := some "queue.submit failed" }
    else
      { state := { s1 with animationId := some nextAnimId },
        submitted := true, scheduled := true, error := none }

/-- `n` frame ticks driven by a synthetic clock that reads `t0 + step * k` at
the `k`-th tick (`k = 1, 2, ...`), with every GPU call succeeding. -/
def syntheticTicks (t0 step : ℚ) (s : GPURendererState) : Nat → GPURendererState
  | 0 => s
  | n + 1 =>
      (frame (t0 + step * (n + 1)) true true (n + 1)
        (syntheticTicks t0 step s n)).state

/-- Mirror of the controller's `stop` (src/unnamed/part_001): sets
`isRunning = false` and, when a frame is scheduled, cancels it and clears
`animationId`. -/
def stop (s : GPURendererState) : GPURendererState :=
  { s with isRunning := false, animationId := none }

/-- Mirror of the controller's `setSpeed` (src/unnamed/part_001): absolute
write of the `speed` field. -/
def setSpeed (v : ℚ) (s : GPURendererState) : GPURendererState :=
  { s with speed := v }

/-- Mirror of the controller's `getFps` (src/unnamed/part_001): returns the
stored `fps` field as last written by `frame`. -/
def getFps (s : GPURendererState) : JsNum :=
  s.fps

/-- Mirror of the controller's `updateImage` (src/unnamed/part_001):
```
const imageBitmap = await loadImageBitmap(imagePath);   // may reject
state.texture = await createTexture(state.device, imageBitmap);
state.angle = 0;
```
`loadOk` says whether fetch + decode of the new image succeeds and `newTexId`
is the texture `createTexture` would create. Returns the state after the call,
the list of GPU calls issued, and the error when the promise rejects. -/
def updateImage (loadOk : Bool) (newTexId : Nat) (s : GPURendererState) :
    GPURendererState × List GpuCall × Option String :=
  if loadOk = false then
    (s, [], some "image load failed")
  else
    ({ s with texture := newTexId, angle := 0 },
     [GpuCall.createTex newTexId], none)

/-- Mirror of the controller's `updateCanvas` (src/unnamed/part_001):
```
const wasRunning = state.isRunning;
if (wasRunning) controller.stop();
const gpuResult = await initWebGPU(canvas);
if (gpuResult.tag === "Err") throw new Error(gpuResult.error);
state.context = gpuResult.value.context;
state.canvas = canvas;
state.angle = 0;
if (wasRunning) { state.isRunning = true;
                  state.animationId = requestAnimationFrame(frame); }
```
Returns the state after the call (mutations made before a throw persist) and
the thrown error, if any. -/
def updateCanvas (env : GpuEnv) (newCanvasId newAnimId : Nat)
    (s : GPURendererState) : GPURendererState × Option String :=
  let wasRunning := s.isRunning
  let s0 := if wasRunning then stop s else s
  match initWebGPU env with
  | .Err e => (s0, some e)
  | .Ok ctx =>
      let s1 : GPURendererState :=
        { s0 with context := ctx, canvas := newCanvasId, angle := 0 }
      if wasRunning then
        ({ s1 with isRunning := true, animationId := some newAnimId }, none)
      else
        (s1, none)

/-- Construction-time environment for `createGPURenderer`: the GPU capabilities,
whether the initial `loadImageBitmap(config.imagePath)` succeeds, the ids of the
canvas, of the texture the initial `createTexture` builds and of the first
`requestAnimationFrame` handle, and the `performance.now()` reading taken when
the state record is built. -/
structure ConstructEnv where
  gpu : GpuEnv
  imageLoadOk : Bool
  canvasId : Nat
  textureId : Nat
  constructionTime : ℚ
  firstAnimId : Nat
deriving DecidableEq, Repr

/-- Mirror of `createGPURenderer` (src/unnamed/part_001). On `initWebGPU`
returning `Err`, the source does `throw new Error(gpuResult.error)` — modelled
as `Except.error`; a failing initial image load rejects the promise likewise.
On success it builds the state record with `speed = config.speed ?? 1.0`,
`angle = 0`, `fps = 0`, `lastFrameTime = performance.now()`, then before
returning sets `isRunning = true` and schedules the first frame. -/
def createGPURenderer (cenv : ConstructEnv) (speedCfg : Option ℚ) :
    Except String GPURendererState :=
  match initWebGPU cenv.gpu with
  | .Err e => .error e
  | .Ok ctx =>
      if cenv.imageLoadOk = false then .error "image load failed"
      else
        .ok
          { context := ctx
            canvas := cenv.canvasId
            texture := cenv.textureId
            speed := speedCfg.getD 1
            angle := 0
            isRunning := true
            animationId := some cenv.firstAnimId
            lastFrameTime := cenv.constructionTime
            fps := .fin 0 }

/-- Mirror of `EngineState` (src/src/engine/index.ts): `{ speed: number }`,
initialised to `{ speed: 300 }`. -/
structure EngineState where
  speed : ℚ
deriving DecidableEq, Repr

/-- Mirror of `PresentationEvent` (src/src/engine/index.ts): the tagged union
`NextImg | PrevImg | ChangeSpeed | ChangeFPS`. -/
inductive PresentationEvent where
  | nextImg
  | prevImg
  | changeSpeed (speed : ℚ)
  | changeFPS (fps : ℚ)
deriving DecidableEq, Repr

/-- Mirror of `dispatchEvent` (src/src/engine/index.ts): `changeSpeed` does
`engineState.speed += ev.speed`; every other event kind falls through to the
default branch and is a no-op. -/
def dispatchEvent (s : EngineState) : PresentationEvent → EngineState
  | .changeSpeed d => { s with speed := s.speed + d }
  | .nextImg => s
  | .prevImg => s
  | .changeFPS _ => s

/-- Mirror of the facade's `run` (src/src/engine/index.ts): its body is empty
(the comment in the source says the GPU controller already starts drawing on
its own), so it changes neither the engine state nor the renderer state. -/
def engineRun (e : EngineState) (g : GPURendererState) :
    EngineState × GPURendererState :=
  (e, g)

/-! Concrete states and environments used by the scenario theorems below. -/

/-- The renderer state as `createGPURenderer` builds it with `initialSpeed = 300`
and a synthetic construction clock reading 0. -/
def initState300 : GPURendererState :=
  { context := 7, canvas := 1, texture := 0, speed := 300, angle := 0,
    isRunning := true, animationId := some 3, lastFrameTime := 0, fps := .fin 0 }

/-- A platform where every WebGPU capability probe succeeds. -/
def gpuEnvOk : GpuEnv := ⟨true, true, true, 7⟩

/-- A platform where `canvas.getContext("webgpu")` returns null. -/
def gpuEnvNoContext : GpuEnv := ⟨true, true, false, 0⟩

/-- Construction environment on a platform without `navigator.gpu`. -/
def cenvNoGpu : ConstructEnv := ⟨⟨false, true, true, 0⟩, true, 1, 2, 0, 3⟩

/-- Construction environment on a platform where `requestAdapter()` yields null. -/
def cenvNoAdapter : ConstructEnv := ⟨⟨true, false, true, 0⟩, true, 1, 2, 0, 3⟩

/-- Construction environment where everything succeeds. -/
def cenvOk : ConstructEnv := ⟨gpuEnvOk, true, 1, 0, 0, 3⟩

/-- C1: while the loop is running, one frame tick adds exactly
`speed * (deltaMillis / 1000)` degrees to the angle, and with `speed = 300`
and a synthetic clock advancing 1000 ms per tick the angle is 300 after one
tick and 900 after three — in particular no mod-360 normalisation is applied,
since 900 is stored as is. -/
theorem c1_angle_accumulation :
    (∀ (s : GPURendererState) (now : ℚ) (aId : Nat),
        s.isRunning = true →
        (frame now true true aId s).state.angle
          = s.angle + s.speed * ((now - s.lastFrameTime) / 1000))
    ∧ (syntheticTicks 0 1000 initState300 1).angle = 300
    ∧ (syntheticTicks 0 1000 initState300 3).angle = 900 := by
  refine ⟨fun s now aId h => ?_, ?_, ?_⟩
  · simp [frame, h]
  · norm_num [syntheticTicks, frame, initState300, jsDiv]
  · norm_num [syntheticTicks, frame, initState300, jsDiv]

/-- Witness for C1 at a concrete running state and tick. -/
theorem c1_angle_accumulation_witness :
    (frame 1000 true true 1 initState300).state.angle
      = initState300.angle
        + initState300.speed * ((1000 - initState300.lastFrameTime) / 1000) :=
  c1_angle_accumulation.1 initState300 1000 1 rfl

/-- C2 (failing input): on a frame tick whose `deltaMillis` is 0 (the clock
reads the same value as `lastFrameTime`), the code stores
`fps = 1000 / 0 = Infinity` — there is no guard — so `getFps` returns
`Infinity`, contradicting the claim that it is 0 or the previous value and
never `Infinity`. -/
theorem c2_delta_zero_gives_infinite_fps :
    (frame 0 true true 1 initState300).state.fps = JsNum.posInf
    ∧ getFps (frame 0 true true 1 initState300).state = JsNum.posInf := by
  constructor <;> norm_num [frame, getFps, initState300, jsDiv]

/-- C3 (counterexample): on a platform without WebGPU support,
`createGPURenderer` throws (`Except.error` models `throw new Error(...)` /
a rejected promise) instead of returning a success/failure result value, so
the caller cannot check a result — refuting the claim. -/
theorem c3_counterexample :
    createGPURenderer cenvNoGpu (some 300)
      = Except.error "WebGPU is not supported." := rfl

/-- C3 (amended): construction failures are detected internally through the
`Result` value returned by `initWebGPU`, but `createGPURenderer` surfaces them
to its caller by throwing: whenever `initWebGPU` yields `Err e` the constructor
throws `e`, and a failed initial image load also throws. -/
theorem c3_construction_failures_throw :
    ∀ (cenv : ConstructEnv) (sp : Option ℚ),
      (∀ e, initWebGPU cenv.gpu = .Err e →
          createGPURenderer cenv sp = Except.error e)
      ∧ (cenv.imageLoadOk = false →
          ∃ e, createGPURenderer cenv sp = Except.error e) := by
  intro cenv sp
  constructor
  · intro e he
    simp [createGPURenderer, he]
  · intro hLoad
    cases hInit : initWebGPU cenv.gpu with
    | Err e => exact ⟨e, by simp [createGPURenderer, hInit]⟩
    | Ok ctx => exact ⟨"image load failed", by simp [createGPURenderer, hInit, hLoad]⟩

/-- Witness for the amended C3: on a platform whose adapter request fails,
construction throws exactly the `Err` message of `initWebGPU`. -/
theorem c3_construction_failures_throw_witness :
    createGPURenderer cenvNoAdapter (some 300)
      = Except.error "No GPU adapter found." :=
  (c3_construction_failures_throw cenvNoAdapter (some 300)).1
    "No GPU adapter found." rfl

/-- C4: a successful `updateImage` and a successful `updateCanvas` each leave
the rotation angle at exactly 0, from any prior state (running or stopped) and
any prior angle. -/
theorem c4_reset_angle :
    (∀ (s : GPURendererState) (loadOk : Bool) (tex : Nat),
        (updateImage loadOk tex s).2.2 = none →
        (updateImage loadOk tex s).1.angle = 0)
    ∧ (∀ (s : GPURendererState) (env : GpuEnv) (cv av : Nat),
        (updateCanvas env cv av s).2 = none →
        (updateCanvas env cv av s).1.angle = 0) := by
  constructor
  · intro s loadOk tex h
    cases loadOk <;> simp_all [updateImage]
  · intro s env cv av h
    cases hInit : initWebGPU env with
    | Err e => simp [updateCanvas, hInit] at h
    | Ok ctx =>
        cases hr : s.isRunning <;>
          simp [updateCanvas, hInit, hr, stop]

/-- Witness for C4 at a concrete running state. -/
theorem c4_reset_angle_witness :
    (updateImage true 5 initState300).1.angle = 0
    ∧ (updateCanvas gpuEnvOk 9 10 initState300).1.angle = 0 :=
  ⟨c4_reset_angle.1 initState300 true 5 rfl,
   c4_reset_angle.2 initState300 gpuEnvOk 9 10 rfl⟩

/-- C5: dispatching `changeSpeed d` through the facade replaces the engine
state by exactly `speed := old speed + d` (a relative adjustment); since the
result is stated as a whole-record equality and `speed` is the engine state's
only field, no other engine state changes. -/
theorem c5_changeSpeed_is_relative :
    ∀ (s : EngineState) (d : ℚ),
      dispatchEvent s (.changeSpeed d) = { speed := s.speed + d } := by
  intro s d
  rfl

/-- C6: a frame callback executing while `isRunning` is false returns
immediately: the state is bit-for-bit unchanged (no write to `lastFrameTime`,
`angle` or `fps`), nothing is submitted to the GPU and no next frame is
scheduled. -/
theorem c6_stale_frame_is_noop :
    ∀ (s : GPURendererState) (now : ℚ) (aOk sOk : Bool) (aId : Nat),
      s.isRunning = false →
      frame now aOk sOk aId s
        = { state := s, submitted := false, scheduled := false, error := none } := by
  intro s now aOk sOk aId h
  simp [frame, h]

/-- Witness for C6: a pending frame executing right after `stop()` is a no-op. -/
theorem c6_stale_frame_is_noop_witness :
    frame 50 true true 2 (stop initState300)
      = { state := stop initState300, submitted := false, scheduled := false,
          error := none } :=
  c6_stale_frame_is_noop (stop initState300) 50 true true 2 rfl

/-- C7 (counterexample): when frame-target acquisition fails during a frame of
a running controller, the callback throws — but `isRunning` is still `true`
afterwards (the code never transitions to stopped on a frame failure),
refuting the claim that `isRunning()` returns false after the failing frame. -/
theorem c7_counterexample :
    (frame 16 false true 9 initState300).error
        = some "getCurrentTexture failed"
    ∧ (frame 16 false true 9 initState300).state.isRunning = true := by
  constructor <;> rfl

/-- C7 (amended): a GPU failure during a frame (target acquisition or
submission) makes the callback throw before the rescheduling line, so nothing
is submitted and no further frame is scheduled — but the state is NOT
transitioned to stopped: `isRunning` stays `true` and `animationId` keeps its
stale value, and the error escapes into the animation-callback context rather
than being delivered to the controller's owner. -/
theorem c7_gpu_failure_stops_scheduling_not_state :
    ∀ (s : GPURendererState) (now : ℚ) (aOk sOk : Bool) (aId : Nat),
      s.isRunning = true → (aOk = false ∨ sOk = false) →
      ((frame now aOk sOk aId s).error.isSome = true
       ∧ (frame now aOk sOk aId s).scheduled = false
       ∧ (frame now aOk sOk aId s).submitted = false
       ∧ (frame now aOk sOk aId s).state.isRunning = true
       ∧ (frame now aOk sOk aId s).state.animationId = s.animationId) := by
  intro s now aOk sOk aId hRun hFail
  rcases hFail with hA | hS
  · simp [frame, hRun, hA]
  · cases aOk <;> simp [frame, hRun, hS]

/-- Witness for the amended C7 at a concrete running state whose submission
fails. -/
theorem c7_gpu_failure_witness :
    (frame 16 true false 9 initState300).error.isSome = true
    ∧ (frame 16 true false 9 initState300).scheduled = false
    ∧ (frame 16 true false 9 initState300).submitted = false
    ∧ (frame 16 true false 9 initState300).state.isRunning = true
    ∧ (frame 16 true false 9 initState300).state.animationId
        = initState300.animationId :=
  c7_gpu_failure_stops_scheduling_not_state initState300 16 true false 9 rfl
    (Or.inr rfl)

/-- C8 (counterexample): a successful `updateImage` swaps the texture field to
the new texture but issues no `destroy` call for the previous texture — its GPU
memory is not released by the swap, refuting the release half of the claim. -/
theorem c8_counterexample :
    (updateImage true 42 initState300).1.texture = 42
    ∧ (updateImage true 42 initState300).2.1 = [GpuCall.createTex 42]
    ∧ GpuCall.destroyTex initState300.texture
        ∉ (updateImage true 42 initState300).2.1 := by
  refine ⟨rfl, rfl, ?_⟩
  decide

/-- C8 (amended): exactly one texture is current at any time (the state has a
single `texture` field, and a successful `updateImage` makes the new texture
the current one in one assignment), but the previously current texture is
never destroyed: `updateImage` issues no `destroyTex` call at all, leaving the
old texture's GPU memory to garbage collection. -/
theorem c8_single_texture_never_destroyed :
    ∀ (s : GPURendererState) (loadOk : Bool) (tex : Nat),
      ((updateImage loadOk tex s).2.2 = none →
          (updateImage loadOk tex s).1.texture = tex)
      ∧ ∀ i, GpuCall.destroyTex i ∉ (updateImage loadOk tex s).2.1 := by
  intro s loadOk tex
  constructor
  · intro h
    cases loadOk <;> simp_all [updateImage]
  · intro i
    cases loadOk <;> simp [updateImage]

/-- Witness for the amended C8 at a concrete successful image swap. -/
theorem c8_single_texture_witness :
    (updateImage true 11 initState300).1.texture = 11 :=
  (c8_single_texture_never_destroyed initState300 true 11).1 rfl

/-- C9 (counterexample): immediately after `createGPURenderer` resolves — and
hence before any call to the facade's `run()` — the loop is already running
(`isRunning = true`, first frame scheduled), and `run()` changes nothing (its
body is empty). So `run()` is not what starts the render loop, refuting the
claim that the loop is not running before `run()` is called. -/
theorem c9_counterexample :
    createGPURenderer cenvOk (some 300) = Except.ok initState300
    ∧ initState300.isRunning = true
    ∧ engineRun ⟨300⟩ initState300 = (⟨300⟩, initState300) := by
  refine ⟨rfl, rfl, rfl⟩

/-- C9 (amended): the facade's `run()` is a no-op on all state; the loop is
started by `createGPURenderer` itself, whose every successful result already
has `isRunning = true` with the first frame scheduled. -/
theorem c9_loop_starts_at_construction :
    (∀ (e : EngineState) (g : GPURendererState), engineRun e g = (e, g))
    ∧ ∀ (cenv : ConstructEnv) (sp : Option ℚ) (s : GPURendererState),
        createGPURenderer cenv sp = Except.ok s →
        s.isRunning = true ∧ s.animationId = some cenv.firstAnimId := by
  constructor
  · intro e g
    rfl
  · intro cenv sp s h
    cases hInit : initWebGPU cenv.gpu with
    | Err e => simp [createGPURenderer, hInit] at h
    | Ok ctx =>
        cases hLoad : cenv.imageLoadOk with
        | false => simp [createGPURenderer, hInit, hLoad] at h
        | true =>
            simp [createGPURenderer, hInit, hLoad] at h
            subst h
            exact ⟨rfl, rfl⟩

/-- Witness for the amended C9 at a concrete successful construction. -/
theorem c9_loop_starts_at_construction_witness :
    initState300.isRunning = true
    ∧ initState300.animationId = some cenvOk.firstAnimId :=
  c9_loop_starts_at_construction.2 cenvOk (some 300) initState300 rfl

/-- C10: when `updateCanvas` is called on a running controller and the
re-initialisation of the new surface fails, the call throws the `Err` message,
the controller is left stopped (`isRunning = false`, not resumed), and the
previous canvas, context and rotation angle are unchanged. -/
theorem c10_updateCanvas_failure_leaves_stopped :
    ∀ (s : GPURendererState) (env : GpuEnv) (cv av : Nat) (e : String),
      s.isRunning = true → initWebGPU env = .Err e →
      ((updateCanvas env cv av s).2 = some e
       ∧ (updateCanvas env cv av s).1.isRunning = false
       ∧ (updateCanvas env cv av s).1.animationId = none
       ∧ (updateCanvas env cv av s).1.canvas = s.canvas
       ∧ (updateCanvas env cv av s).1.context = s.context
       ∧ (updateCanvas env cv av s).1.angle = s.angle) := by
  intro s env cv av e hRun hInit
  simp [updateCanvas, hRun, hInit, stop]

/-- Witness for C10: a running controller retargeted to a canvas whose WebGPU
context cannot be obtained. -/
theorem c10_updateCanvas_failure_witness :
    (updateCanvas gpuEnvNoContext 9 10 initState300).2
        = some "WebGPU is not supported."
    ∧ (updateCanvas gpuEnvNoContext 9 10 initState300).1.isRunning = false
    ∧ (updateCanvas gpuEnvNoContext 9 10 initState300).1.animationId = none
    ∧ (updateCanvas gpuEnvNoContext 9 10 initState300).1.canvas
        = initState300.canvas
    ∧ (updateCanvas gpuEnvNoContext 9 10 initState300).1.context
        = initState300.context
    ∧ (updateCanvas gpuEnvNoContext 9 10 initState300).1.angle
        = initState300.angle :=
  c10_updateCanvas_failure_leaves_stopped initState300 gpuEnvNoContext 9 10
    "WebGPU is not supported." rfl rfl

end Rom6
